import Mathlib

/-!
Shallow embedding of the WTLeistung psychrometric engine
(`calculateHvacPerformance` and its helpers from `src/types.ts`).

JavaScript numbers are modelled as real numbers.  The positive-infinity
sentinel that the source stores in `waterVolumeFlow` and
`recommendedPipeDiameter` when `deltaT_water == 0` is modelled by `Option ℝ`:
`none` is the sentinel, `some v` a finite value.  The source's
`isFinite(waterVolumeFlow_m3_per_h)` guard is identically true over ℝ once
`deltaT_water > 0`, so the diameter branch carries the same condition.
`Math.PI` is modelled as `Real.pi`.
-/

open scoped Classical

namespace WTLeistung

noncomputable section

/-- Input record `HvacInputs` of `src/types.ts`. -/
structure HvacInputs where
  outsideTemp : ℝ
  outsideHumidity : ℝ
  volumeFlow : ℝ
  targetTemp : ℝ
  supplyTemp : ℝ
  returnTemp : ℝ

/-- Result record `HvacResults` of `src/types.ts`.  `isHeating` is a
proposition (the source's boolean `deltaT_air > 0`), and the two possibly
non-finite fields are `Option ℝ`. -/
structure HvacResults where
  sensiblePower : ℝ
  latentPower : ℝ
  totalPower : ℝ
  waterVolumeFlow : Option ℝ
  finalHumidity : ℝ
  isHeating : Prop
  dewPoint : ℝ
  initialAbsoluteHumidity : ℝ
  finalAbsoluteHumidity : ℝ
  efficiency : ℝ
  recommendedPipeDiameter : Option ℝ

def AIR_DENSITY : ℝ := 1.204
def SPECIFIC_HEAT_AIR : ℝ := 1.005
def SPECIFIC_HEAT_WATER : ℝ := 4.186
def WATER_DENSITY : ℝ := 1000
def ATMOSPHERIC_PRESSURE : ℝ := 1013.25
def LATENT_HEAT_VAPORIZATION : ℝ := 2260
def RECOMMENDED_WATER_VELOCITY : ℝ := 1.5

/-- Magnus formula for saturation vapor pressure (hPa), temp in °C. -/
def calculateSaturationVaporPressure (temp : ℝ) : ℝ :=
  6.112 * Real.exp ((17.67 * temp) / (temp + 243.5))

/-- Dew point temperature (°C) from actual vapor pressure (hPa). -/
def calculateDewPoint (vaporPressure : ℝ) : ℝ :=
  (243.5 * Real.log (vaporPressure / 6.112)) /
    (17.67 - Real.log (vaporPressure / 6.112))

/-- Absolute humidity (g/kg) from actual vapor pressure (hPa). -/
def calculateAbsoluteHumidity (vaporPressure : ℝ) : ℝ :=
  (622 * vaporPressure) / (ATMOSPHERIC_PRESSURE - vaporPressure)

/-- `const airMassFlow_kg_per_s = (volumeFlow * AIR_DENSITY) / 3600`. -/
def airMassFlow_kg_per_s (i : HvacInputs) : ℝ :=
  i.volumeFlow * AIR_DENSITY / 3600

/-- `const deltaT_air = targetTemp - outsideTemp`. -/
def deltaT_air (i : HvacInputs) : ℝ :=
  i.targetTemp - i.outsideTemp

/-- `const isHeating = deltaT_air > 0`. -/
def isHeating (i : HvacInputs) : Prop :=
  deltaT_air i > 0

/-- `const sensiblePower_kW = airMassFlow_kg_per_s * SPECIFIC_HEAT_AIR * deltaT_air`. -/
def sensiblePower_kW (i : HvacInputs) : ℝ :=
  airMassFlow_kg_per_s i * SPECIFIC_HEAT_AIR * deltaT_air i

/-- `const initialSatPressure = calculateSaturationVaporPressure(outsideTemp)`. -/
def initialSatPressure (i : HvacInputs) : ℝ :=
  calculateSaturationVaporPressure i.outsideTemp

/-- `const initialVaporPressure = (outsideHumidity / 100) * initialSatPressure`. -/
def initialVaporPressure (i : HvacInputs) : ℝ :=
  (i.outsideHumidity / 100) * initialSatPressure i

/-- `const dewPoint = calculateDewPoint(initialVaporPressure)`. -/
def dewPoint (i : HvacInputs) : ℝ :=
  calculateDewPoint (initialVaporPressure i)

/-- `const initialAbsoluteHumidity = calculateAbsoluteHumidity(initialVaporPressure)`. -/
def initialAbsoluteHumidity (i : HvacInputs) : ℝ :=
  calculateAbsoluteHumidity (initialVaporPressure i)

/-- The mutable `finalAbsoluteHumidity`: initialised to the initial value and
reassigned only in the condensation branch
(`!isHeating && targetTemp < dewPoint`). -/
def finalAbsoluteHumidity (i : HvacInputs) : ℝ :=
  if isHeating i then initialAbsoluteHumidity i
  else if i.targetTemp ≥ dewPoint i then initialAbsoluteHumidity i
  else calculateAbsoluteHumidity (calculateSaturationVaporPressure i.targetTemp)

/-- `finalHumidity` as assigned by the three-way branch, before the clamp. -/
def finalHumidityPreClamp (i : HvacInputs) : ℝ :=
  if isHeating i then
    (initialVaporPressure i / calculateSaturationVaporPressure i.targetTemp) * 100
  else if i.targetTemp ≥ dewPoint i then
    (initialVaporPressure i / calculateSaturationVaporPressure i.targetTemp) * 100
  else 100

/-- The mutable `latentPower_kW`: `0` unless the condensation branch runs, where
`latentPower_kW = -Math.abs(waterCondensed_kg_per_s * LATENT_HEAT_VAPORIZATION)`
with `waterCondensed_kg_per_s = airMassFlow_kg_per_s * (deltaAbsoluteHumidity_g_per_kg / 1000)`. -/
def latentPower_kW (i : HvacInputs) : ℝ :=
  if isHeating i then 0
  else if i.targetTemp ≥ dewPoint i then 0
  else
    -|airMassFlow_kg_per_s i *
        ((initialAbsoluteHumidity i -
            calculateAbsoluteHumidity (calculateSaturationVaporPressure i.targetTemp)) / 1000) *
        LATENT_HEAT_VAPORIZATION|

/-- `finalHumidity = Math.max(0, Math.min(finalHumidity, 100))`. -/
def finalHumidity (i : HvacInputs) : ℝ :=
  max 0 (min (finalHumidityPreClamp i) 100)

/-- `const totalPower_kW = sensiblePower_kW + latentPower_kW`. -/
def totalPower_kW (i : HvacInputs) : ℝ :=
  sensiblePower_kW i + latentPower_kW i

/-- `const deltaT_water = Math.abs(supplyTemp - returnTemp)`. -/
def deltaT_water (i : HvacInputs) : ℝ :=
  |i.supplyTemp - i.returnTemp|

/-- The finite value assigned to `waterVolumeFlow_m3_per_h` when
`deltaT_water > 0`:
`waterMassFlow_kg_per_s * 3600 / WATER_DENSITY` with
`waterMassFlow_kg_per_s = Math.abs(totalPower_kW) / (SPECIFIC_HEAT_WATER * deltaT_water)`. -/
def waterVolumeFlowVal (i : HvacInputs) : ℝ :=
  |totalPower_kW i| / (SPECIFIC_HEAT_WATER * deltaT_water i) * 3600 / WATER_DENSITY

/-- `waterVolumeFlow_m3_per_h`: `Infinity` (= `none`) unless `deltaT_water > 0`. -/
def waterVolumeFlow_m3_per_h (i : HvacInputs) : Option ℝ :=
  if 0 < deltaT_water i then some (waterVolumeFlowVal i) else none

/-- `recommendedPipeDiameter` (mm): `Infinity` (= `none`) unless
`deltaT_water > 0`; otherwise `Math.sqrt((4 * area_m2) / Math.PI) * 1000` with
`area_m2 = (waterVolumeFlow / 3600) / RECOMMENDED_WATER_VELOCITY` (the source's
`isFinite` guard is identically true over ℝ in this branch). -/
def recommendedPipeDiameter (i : HvacInputs) : Option ℝ :=
  if 0 < deltaT_water i then
    some (Real.sqrt (4 * (waterVolumeFlowVal i / 3600 / RECOMMENDED_WATER_VELOCITY) / Real.pi)
      * 1000)
  else none

/-- `const potential_deltaT = supplyTemp - outsideTemp`. -/
def potential_deltaT (i : HvacInputs) : ℝ :=
  i.supplyTemp - i.outsideTemp

/-- `const validScenario = (isHeating && potential_deltaT > 0) || (!isHeating && potential_deltaT < 0)`. -/
def validScenario (i : HvacInputs) : Prop :=
  (isHeating i ∧ 0 < potential_deltaT i) ∨ (¬ isHeating i ∧ potential_deltaT i < 0)

/-- `efficiency`, including the final clamp `Math.max(0, Math.min(efficiency, 1))`. -/
def efficiency (i : HvacInputs) : ℝ :=
  max 0 (min
    (if validScenario i ∧ 1e-6 < |potential_deltaT i| then
      (i.targetTemp - i.outsideTemp) / potential_deltaT i
    else 0) 1)

/-- The engine `calculateHvacPerformance` of `src/types.ts`, assembled from the
step definitions above.  Over ℝ every step is total, so the result record is
always produced (the source's `try`/`catch` wrapper has no arithmetic
exceptions to catch; see the error-handling discussion in the theorems). -/
def calculateHvacPerformance (i : HvacInputs) : HvacResults :=
  { sensiblePower := sensiblePower_kW i
    latentPower := latentPower_kW i
    totalPower := totalPower_kW i
    waterVolumeFlow := waterVolumeFlow_m3_per_h i
    finalHumidity := finalHumidity i
    isHeating := isHeating i
    dewPoint := dewPoint i
    initialAbsoluteHumidity := initialAbsoluteHumidity i
    finalAbsoluteHumidity := finalAbsoluteHumidity i
    efficiency := efficiency i
    recommendedPipeDiameter := recommendedPipeDiameter i }

/-- Concrete input used by the C3 witness: heating scenario A of the spec. -/
def wIn3 : HvacInputs := ⟨0, 50, 2000, 22, 60, 40⟩

/-- Concrete input used by the C5 witness, with `supplyTemp ≠ returnTemp`. -/
def wIn5a : HvacInputs := ⟨10, 60, 2000, 22, 60, 40⟩

/-- Concrete input used by the C5 witness, with `supplyTemp = returnTemp`. -/
def wIn5b : HvacInputs := ⟨10, 60, 2000, 22, 50, 50⟩

/-- Concrete input used by the C2 witness: saturated 30 °C outside air cooled
to 12 °C, so the condensation branch runs. -/
def wIn2 : HvacInputs := ⟨30, 100, 2000, 12, 6, 12⟩

/-- Concrete input used by the C9 witness (first snapshot). -/
def wIn9a : HvacInputs := ⟨10, 60, 2000, 22, 60, 40⟩

/-- Concrete input used by the C9 witness: same outside air as `wIn9a`, all
other fields different. -/
def wIn9b : HvacInputs := ⟨10, 60, 450, 5, 7, 3⟩

end

/-- C1: for every input snapshot, `isHeating` holds exactly when
`targetTemp > outsideTemp`, `sensiblePower` equals
`(volumeFlow * 1.204 / 3600) * 1.005 * (targetTemp - outsideTemp)`, and
`totalPower = sensiblePower + latentPower`. -/
theorem c1_mode_sensible_total (i : HvacInputs) :
    ((calculateHvacPerformance i).isHeating ↔ i.targetTemp > i.outsideTemp) ∧
    (calculateHvacPerformance i).sensiblePower =
      i.volumeFlow * 1.204 / 3600 * 1.005 * (i.targetTemp - i.outsideTemp) ∧
    (calculateHvacPerformance i).totalPower =
      (calculateHvacPerformance i).sensiblePower + (calculateHvacPerformance i).latentPower := by
  refine ⟨?_, rfl, rfl⟩
  show deltaT_air i > 0 ↔ i.targetTemp > i.outsideTemp
  unfold deltaT_air
  exact sub_pos

/-- C4: for all inputs the returned `finalHumidity` lies in `[0, 100]` and the
returned `efficiency` lies in `[0, 1]`. -/
theorem c4_final_humidity_and_efficiency_clamped (i : HvacInputs) :
    0 ≤ (calculateHvacPerformance i).finalHumidity ∧
    (calculateHvacPerformance i).finalHumidity ≤ 100 ∧
    0 ≤ (calculateHvacPerformance i).efficiency ∧
    (calculateHvacPerformance i).efficiency ≤ 1 :=
  ⟨le_max_left _ _, max_le (by norm_num) (min_le_right _ _),
    le_max_left _ _, max_le (by norm_num) (min_le_right _ _)⟩

/-- C9: two input snapshots agreeing on `outsideTemp` and `outsideHumidity`
(but possibly differing in `volumeFlow`, `targetTemp`, `supplyTemp`,
`returnTemp`) yield the same `dewPoint` and the same
`initialAbsoluteHumidity`. -/
theorem c9_dewpoint_inithum_from_outside_air_only (i j : HvacInputs)
    (ht : i.outsideTemp = j.outsideTemp) (hh : i.outsideHumidity = j.outsideHumidity) :
    (calculateHvacPerformance i).dewPoint = (calculateHvacPerformance j).dewPoint ∧
    (calculateHvacPerformance i).initialAbsoluteHumidity =
      (calculateHvacPerformance j).initialAbsoluteHumidity := by
  have hp : initialVaporPressure i = initialVaporPressure j := by
    unfold initialVaporPressure initialSatPressure
    rw [ht, hh]
  constructor
  · show dewPoint i = dewPoint j
    unfold dewPoint
    rw [hp]
  · show initialAbsoluteHumidity i = initialAbsoluteHumidity j
    unfold initialAbsoluteHumidity
    rw [hp]

/-- Witness for C9: evaluates the theorem at two concrete snapshots that share
the outside-air fields and differ everywhere else. -/
theorem c9_witness :
    (calculateHvacPerformance wIn9a).dewPoint = (calculateHvacPerformance wIn9b).dewPoint ∧
    (calculateHvacPerformance wIn9a).initialAbsoluteHumidity =
      (calculateHvacPerformance wIn9b).initialAbsoluteHumidity :=
  c9_dewpoint_inithum_from_outside_air_only wIn9a wIn9b rfl rfl

/-- C10: the returned `waterVolumeFlow` and `recommendedPipeDiameter` are each
either the positive-infinity sentinel (`none`) or a non-negative finite
value — never negative. -/
theorem c10_water_outputs_nonneg (i : HvacInputs) :
    ((calculateHvacPerformance i).waterVolumeFlow).elim True (fun v => 0 ≤ v) ∧
    ((calculateHvacPerformance i).recommendedPipeDiameter).elim True (fun v => 0 ≤ v) := by
  constructor
  · show (waterVolumeFlow_m3_per_h i).elim True (fun v => 0 ≤ v)
    unfold waterVolumeFlow_m3_per_h
    split_ifs with h
    · show 0 ≤ waterVolumeFlowVal i
      have h1 : (0:ℝ) ≤ |totalPower_kW i| := abs_nonneg _
      have h2 : (0:ℝ) ≤ SPECIFIC_HEAT_WATER * deltaT_water i := by
        unfold SPECIFIC_HEAT_WATER deltaT_water
        positivity
      unfold waterVolumeFlowVal
      exact div_nonneg (mul_nonneg (div_nonneg h1 h2) (by norm_num))
        (by norm_num [WATER_DENSITY])
    · exact trivial
  · show (recommendedPipeDiameter i).elim True (fun v => 0 ≤ v)
    unfold recommendedPipeDiameter
    split_ifs with h
    · exact mul_nonneg (Real.sqrt_nonneg _) (by norm_num)
    · exact trivial

/-- C6: `efficiency` is the `[0,1]`-clamp of
`(targetTemp - outsideTemp) / (supplyTemp - outsideTemp)` exactly when the sign
of `supplyTemp - outsideTemp` agrees with the operating mode and its magnitude
exceeds `1e-6`; in every other configuration it is `0`. -/
theorem c6_efficiency_formula (i : HvacInputs) :
    (calculateHvacPerformance i).efficiency =
      if ((((calculateHvacPerformance i).isHeating ∧ 0 < i.supplyTemp - i.outsideTemp) ∨
            (¬ (calculateHvacPerformance i).isHeating ∧ i.supplyTemp - i.outsideTemp < 0)) ∧
          1e-6 < |i.supplyTemp - i.outsideTemp|) then
        max 0 (min ((i.targetTemp - i.outsideTemp) / (i.supplyTemp - i.outsideTemp)) 1)
      else 0 := by
  show efficiency i = _
  have key : efficiency i =
      (if validScenario i ∧ 1e-6 < |potential_deltaT i| then
        max 0 (min ((i.targetTemp - i.outsideTemp) / potential_deltaT i) 1)
      else 0) := by
    unfold efficiency
    by_cases h : validScenario i ∧ 1e-6 < |potential_deltaT i|
    · rw [if_pos h, if_pos h]
    · rw [if_neg h, if_neg h]
      norm_num [min_def, max_def]
  rw [key]
  exact if_congr Iff.rfl rfl rfl

/-- C3: in the heating branch, and likewise in the cooling branch without
condensation (`targetTemp ≥ dewPoint`), the absolute humidity is unchanged,
`latentPower` is zero, and `finalHumidity` is
`initialVaporPressure / p_sat(targetTemp) * 100` clamped to `[0, 100]`. -/
theorem c3_no_condensation_branches (i : HvacInputs)
    (h : (calculateHvacPerformance i).isHeating ∨
      (¬ (calculateHvacPerformance i).isHeating ∧
        i.targetTemp ≥ (calculateHvacPerformance i).dewPoint)) :
    (calculateHvacPerformance i).finalAbsoluteHumidity =
      (calculateHvacPerformance i).initialAbsoluteHumidity ∧
    (calculateHvacPerformance i).latentPower = 0 ∧
    (calculateHvacPerformance i).finalHumidity =
      max 0 (min (initialVaporPressure i / calculateSaturationVaporPressure i.targetTemp * 100)
        100) := by
  replace h : isHeating i ∨ (¬ isHeating i ∧ i.targetTemp ≥ dewPoint i) := h
  refine ⟨?_, ?_, ?_⟩
  · show finalAbsoluteHumidity i = initialAbsoluteHumidity i
    unfold finalAbsoluteHumidity
    rcases h with h1 | ⟨h1, h2⟩
    · rw [if_pos h1]
    · rw [if_neg h1, if_pos h2]
  · show latentPower_kW i = 0
    unfold latentPower_kW
    rcases h with h1 | ⟨h1, h2⟩
    · rw [if_pos h1]
    · rw [if_neg h1, if_pos h2]
  · show finalHumidity i = _
    unfold finalHumidity finalHumidityPreClamp
    rcases h with h1 | ⟨h1, h2⟩
    · rw [if_pos h1]
    · rw [if_neg h1, if_pos h2]

/-- Witness for C3: evaluates the theorem at the concrete heating snapshot
`wIn3` (outside 0 °C, target 22 °C). -/
theorem c3_witness :
    (calculateHvacPerformance wIn3).finalAbsoluteHumidity =
      (calculateHvacPerformance wIn3).initialAbsoluteHumidity ∧
    (calculateHvacPerformance wIn3).latentPower = 0 ∧
    (calculateHvacPerformance wIn3).finalHumidity =
      max 0 (min (initialVaporPressure wIn3 / calculateSaturationVaporPressure wIn3.targetTemp
        * 100) 100) :=
  c3_no_condensation_branches wIn3 (Or.inl (by
    show deltaT_air wIn3 > 0
    norm_num [deltaT_air, wIn3]))

/-- C5: when `|supplyTemp - returnTemp| > 0` the returned water volume flow is
`|totalPower| / (4.186 * |supplyTemp - returnTemp|) * 3600 / 1000` and the
recommended pipe diameter is `1000 * sqrt(4 * ((waterVolumeFlow/3600) / 1.5) / π)`;
when `supplyTemp = returnTemp` both are the positive-infinity sentinel. -/
theorem c5_water_sizing (i : HvacInputs) :
    (0 < |i.supplyTemp - i.returnTemp| →
      (calculateHvacPerformance i).waterVolumeFlow =
        some (|(calculateHvacPerformance i).totalPower| /
          (4.186 * |i.supplyTemp - i.returnTemp|) * 3600 / 1000) ∧
      (calculateHvacPerformance i).recommendedPipeDiameter =
        some (1000 * Real.sqrt (4 * (|(calculateHvacPerformance i).totalPower| /
          (4.186 * |i.supplyTemp - i.returnTemp|) * 3600 / 1000 / 3600 / 1.5) / Real.pi))) ∧
    (i.supplyTemp = i.returnTemp →
      (calculateHvacPerformance i).waterVolumeFlow = none ∧
      (calculateHvacPerformance i).recommendedPipeDiameter = none) := by
  constructor
  · intro h
    have h' : 0 < deltaT_water i := h
    constructor
    · show waterVolumeFlow_m3_per_h i = _
      unfold waterVolumeFlow_m3_per_h
      rw [if_pos h']
      rfl
    · show recommendedPipeDiameter i = _
      unfold recommendedPipeDiameter
      rw [if_pos h']
      exact congrArg some (mul_comm _ _)
  · intro h
    have h' : ¬ 0 < deltaT_water i := by
      unfold deltaT_water
      rw [h]
      simp
    constructor
    · show waterVolumeFlow_m3_per_h i = none
      unfold waterVolumeFlow_m3_per_h
      rw [if_neg h']
    · show recommendedPipeDiameter i = none
      unfold recommendedPipeDiameter
      rw [if_neg h']

/-- Witness for C5: evaluates the theorem at a snapshot with a 20 K water-side
temperature spread and at a snapshot with `supplyTemp = returnTemp`. -/
theorem c5_witness :
    ((calculateHvacPerformance wIn5a).waterVolumeFlow =
      some (|(calculateHvacPerformance wIn5a).totalPower| /
        (4.186 * |wIn5a.supplyTemp - wIn5a.returnTemp|) * 3600 / 1000) ∧
     (calculateHvacPerformance wIn5a).recommendedPipeDiameter =
      some (1000 * Real.sqrt (4 * (|(calculateHvacPerformance wIn5a).totalPower| /
        (4.186 * |wIn5a.supplyTemp - wIn5a.returnTemp|) * 3600 / 1000 / 3600 / 1.5) / Real.pi))) ∧
    (calculateHvacPerformance wIn5b).waterVolumeFlow = none ∧
    (calculateHvacPerformance wIn5b).recommendedPipeDiameter = none :=
  ⟨(c5_water_sizing wIn5a).1 (by norm_num [wIn5a, abs_pos]),
   (c5_water_sizing wIn5b).2 rfl⟩

section CTwoHelpers

lemma exp_two_lt_eight : Real.exp 2 < 8 := by
  have h1 : Real.exp 1 < 2.7182818286 := Real.exp_one_lt_d9
  have h0 : (0:ℝ) ≤ Real.exp 1 := (Real.exp_pos 1).le
  have h2 : Real.exp 2 = Real.exp 1 * Real.exp 1 := by
    rw [← Real.exp_add]
    norm_num
  rw [h2]
  calc Real.exp 1 * Real.exp 1 < 2.7182818286 * 2.7182818286 := mul_lt_mul'' h1 h1 h0 h0
    _ < 8 := by norm_num

lemma satPressure_pos (t : ℝ) : 0 < calculateSaturationVaporPressure t := by
  unfold calculateSaturationVaporPressure
  positivity

lemma satPressure_thirty_lt : calculateSaturationVaporPressure 30 < 49 := by
  unfold calculateSaturationVaporPressure
  have harg : ((17.67:ℝ) * 30) / (30 + 243.5) ≤ 2 := by norm_num
  have hle := Real.exp_le_exp.mpr harg
  linarith [exp_two_lt_eight]

lemma satPressure_twelve_lt_thirty :
    calculateSaturationVaporPressure 12 < calculateSaturationVaporPressure 30 := by
  unfold calculateSaturationVaporPressure
  have harg : ((17.67:ℝ) * 12) / (12 + 243.5) < (17.67 * 30) / (30 + 243.5) := by norm_num
  have hlt := Real.exp_lt_exp.mpr harg
  linarith

lemma absHumidity_twelve_lt_thirty :
    calculateAbsoluteHumidity (calculateSaturationVaporPressure 12) <
      calculateAbsoluteHumidity (calculateSaturationVaporPressure 30) := by
  have h12 := satPressure_pos 12
  have hlt := satPressure_twelve_lt_thirty
  have h30 := satPressure_thirty_lt
  unfold calculateAbsoluteHumidity ATMOSPHERIC_PRESSURE
  have d30 : (0:ℝ) < 1013.25 - calculateSaturationVaporPressure 30 := by linarith
  have d12 : (0:ℝ) < 1013.25 - calculateSaturationVaporPressure 12 := by linarith
  rw [div_lt_div_iff₀ d12 d30]
  nlinarith

lemma initialVaporPressure_wIn2 :
    initialVaporPressure wIn2 = calculateSaturationVaporPressure 30 := by
  unfold initialVaporPressure initialSatPressure
  norm_num [wIn2]

lemma dewPoint_wIn2 : dewPoint wIn2 = 30 := by
  unfold dewPoint
  rw [initialVaporPressure_wIn2]
  unfold calculateDewPoint calculateSaturationVaporPressure
  rw [mul_div_cancel_left₀ _ (by norm_num : (6.112:ℝ) ≠ 0), Real.log_exp]
  norm_num

lemma not_isHeating_wIn2 : ¬ isHeating wIn2 := by
  show ¬ deltaT_air wIn2 > 0
  norm_num [deltaT_air, wIn2]

lemma initialAbsoluteHumidity_wIn2 :
    initialAbsoluteHumidity wIn2 =
      calculateAbsoluteHumidity (calculateSaturationVaporPressure 30) := by
  unfold initialAbsoluteHumidity
  rw [initialVaporPressure_wIn2]

end CTwoHelpers

/-- C2: in the condensation branch (cooling with `targetTemp < dewPoint`) the
final humidity is `100`, the final absolute humidity is that of saturated air
at the target temperature, and the latent power is
`-|airMassFlow * ((initialAbs - finalAbs) / 1000) * 2260|`; moreover for every
input a nonzero `latentPower` is nonpositive and implies cooling mode. -/
theorem c2_condensation_branch (i : HvacInputs) :
    (¬ (calculateHvacPerformance i).isHeating →
      i.targetTemp < (calculateHvacPerformance i).dewPoint →
      (calculateHvacPerformance i).finalHumidity = 100 ∧
      (calculateHvacPerformance i).finalAbsoluteHumidity =
        calculateAbsoluteHumidity (calculateSaturationVaporPressure i.targetTemp) ∧
      (calculateHvacPerformance i).latentPower =
        -|airMassFlow_kg_per_s i *
            (((calculateHvacPerformance i).initialAbsoluteHumidity -
                (calculateHvacPerformance i).finalAbsoluteHumidity) / 1000) * 2260|) ∧
    ((calculateHvacPerformance i).latentPower ≠ 0 →
      (calculateHvacPerformance i).latentPower ≤ 0 ∧
      ¬ (calculateHvacPerformance i).isHeating) := by
  constructor
  · intro h1 h2
    have h1' : ¬ isHeating i := h1
    have h2' : ¬ i.targetTemp ≥ dewPoint i := not_le.mpr h2
    have hfin : finalAbsoluteHumidity i =
        calculateAbsoluteHumidity (calculateSaturationVaporPressure i.targetTemp) := by
      unfold finalAbsoluteHumidity
      rw [if_neg h1', if_neg h2']
    refine ⟨?_, hfin, ?_⟩
    · show finalHumidity i = 100
      unfold finalHumidity finalHumidityPreClamp
      rw [if_neg h1', if_neg h2']
      norm_num [min_def, max_def]
    · show latentPower_kW i =
        -|airMassFlow_kg_per_s i *
            ((initialAbsoluteHumidity i - finalAbsoluteHumidity i) / 1000) * 2260|
      rw [hfin]
      unfold latentPower_kW
      rw [if_neg h1', if_neg h2']
      rfl
  · intro hne
    have hle : (calculateHvacPerformance i).latentPower ≤ 0 := by
      show latentPower_kW i ≤ 0
      unfold latentPower_kW
      split_ifs
      · exact le_refl 0
      · exact le_refl 0
      · exact neg_nonpos.mpr (abs_nonneg _)
    refine ⟨hle, fun hheat => hne ?_⟩
    show latentPower_kW i = 0
    unfold latentPower_kW
    rw [if_pos (show isHeating i from hheat)]

/-- Witness for C2: evaluates the theorem at `wIn2` (saturated 30 °C air cooled
to 12 °C), where the latent power is strictly negative. -/
theorem c2_witness :
    ((calculateHvacPerformance wIn2).finalHumidity = 100 ∧
     (calculateHvacPerformance wIn2).finalAbsoluteHumidity =
       calculateAbsoluteHumidity (calculateSaturationVaporPressure wIn2.targetTemp) ∧
     (calculateHvacPerformance wIn2).latentPower =
       -|airMassFlow_kg_per_s wIn2 *
           (((calculateHvacPerformance wIn2).initialAbsoluteHumidity -
               (calculateHvacPerformance wIn2).finalAbsoluteHumidity) / 1000) * 2260|) ∧
    ((calculateHvacPerformance wIn2).latentPower ≤ 0 ∧
      ¬ (calculateHvacPerformance wIn2).isHeating) := by
  have hnh : ¬ (calculateHvacPerformance wIn2).isHeating := not_isHeating_wIn2
  have hlt : wIn2.targetTemp < (calculateHvacPerformance wIn2).dewPoint := by
    show wIn2.targetTemp < dewPoint wIn2
    rw [dewPoint_wIn2]
    norm_num [wIn2]
  have hne : (calculateHvacPerformance wIn2).latentPower ≠ 0 := by
    show latentPower_kW wIn2 ≠ 0
    have h2' : ¬ wIn2.targetTemp ≥ dewPoint wIn2 := not_le.mpr hlt
    unfold latentPower_kW
    rw [if_neg not_isHeating_wIn2, if_neg h2']
    have hamf : 0 < airMassFlow_kg_per_s wIn2 := by
      unfold airMassFlow_kg_per_s AIR_DENSITY
      norm_num [wIn2]
    have hdelta : 0 < initialAbsoluteHumidity wIn2 -
        calculateAbsoluteHumidity (calculateSaturationVaporPressure wIn2.targetTemp) := by
      rw [initialAbsoluteHumidity_wIn2,
        show calculateSaturationVaporPressure wIn2.targetTemp =
          calculateSaturationVaporPressure 12 from rfl]
      linarith [absHumidity_twelve_lt_thirty]
    have hpos : 0 < airMassFlow_kg_per_s wIn2 *
        ((initialAbsoluteHumidity wIn2 -
          calculateAbsoluteHumidity (calculateSaturationVaporPressure wIn2.targetTemp)) / 1000) *
        LATENT_HEAT_VAPORIZATION :=
      mul_pos (mul_pos hamf (div_pos hdelta (by norm_num)))
        (by norm_num [LATENT_HEAT_VAPORIZATION])
    simp only [ne_eq, neg_eq_zero, abs_eq_zero]
    exact ne_of_gt hpos
  exact ⟨(c2_condensation_branch wIn2).1 hnh hlt, (c2_condensation_branch wIn2).2 hne⟩

/-- Counterexample to C8 as stated: at `T = -10`, `RH = 0` (a humidity below
100) the round-trip value is `0`, which is not `≤ -10` — the vapor pressure is
`0` and the dew-point logarithm leaves its domain, so the claim cannot hold for
every `T` and `RH`. -/
theorem c8_counterexample :
    ¬ (calculateDewPoint (calculateSaturationVaporPressure (-10) * 0 / 100) ≤ -10) := by
  have h0 : calculateSaturationVaporPressure (-10) * 0 / 100 = 0 := by ring
  rw [h0]
  unfold calculateDewPoint
  rw [zero_div, Real.log_zero]
  norm_num

/-- C8 (amended): for every temperature `T` above the Magnus-form pole
`-243.5` and every relative humidity `RH > 0`, the round trip
`calculateDewPoint (calculateSaturationVaporPressure T * RH / 100)` yields a
value `≤ T` when `RH < 100` and exactly `T` when `RH = 100`. -/
theorem c8_dewpoint_roundtrip (T RH : ℝ) (hT : -243.5 < T) (hRH : 0 < RH) :
    (RH < 100 → calculateDewPoint (calculateSaturationVaporPressure T * RH / 100) ≤ T) ∧
    (RH = 100 → calculateDewPoint (calculateSaturationVaporPressure T * RH / 100) = T) := by
  have hTb : (0:ℝ) < T + 243.5 := by linarith
  have hTbne : T + 243.5 ≠ 0 := ne_of_gt hTb
  have hr : (0:ℝ) < RH / 100 := by positivity
  have harg : calculateSaturationVaporPressure T * RH / 100 / 6.112 =
      Real.exp ((17.67 * T) / (T + 243.5)) * (RH / 100) := by
    unfold calculateSaturationVaporPressure
    ring
  have hlog : Real.log (calculateSaturationVaporPressure T * RH / 100 / 6.112) =
      (17.67 * T) / (T + 243.5) + Real.log (RH / 100) := by
    rw [harg, Real.log_mul (Real.exp_ne_zero _) (ne_of_gt hr), Real.log_exp]
  have hL0T : (17.67 * T) / (T + 243.5) * (T + 243.5) = 17.67 * T :=
    div_mul_cancel₀ _ hTbne
  have hL0a : (17.67 * T) / (T + 243.5) < 17.67 := by
    rw [div_lt_iff₀ hTb]
    linarith
  constructor
  · intro hlt
    have hc : Real.log (RH / 100) < 0 :=
      Real.log_neg hr ((div_lt_one (by norm_num : (0:ℝ) < 100)).mpr hlt)
    unfold calculateDewPoint
    rw [hlog]
    have hden : 0 < 17.67 - ((17.67 * T) / (T + 243.5) + Real.log (RH / 100)) := by
      linarith
    rw [div_le_iff₀ hden]
    have hcnp : Real.log (RH / 100) * (T + 243.5) ≤ 0 := by nlinarith
    have key : ((17.67 * T) / (T + 243.5) + Real.log (RH / 100)) * (T + 243.5) ≤
        17.67 * T := by nlinarith [hL0T, hcnp]
    nlinarith [key]
  · intro h100
    subst h100
    unfold calculateDewPoint
    rw [hlog]
    have hl1 : Real.log ((100:ℝ) / 100) = 0 := by norm_num [Real.log_one]
    rw [hl1, add_zero]
    have hd : 17.67 - (17.67 * T) / (T + 243.5) = (17.67 * 243.5) / (T + 243.5) := by
      field_simp
      ring
    rw [hd]
    field_simp
    ring

/-- Witness for C8: evaluates the amended theorem at `T = 0`, `RH = 100`, where
the round trip recovers the temperature exactly. -/
theorem c8_witness :
    ((100:ℝ) < 100 →
      calculateDewPoint (calculateSaturationVaporPressure 0 * 100 / 100) ≤ 0) ∧
    ((100:ℝ) = 100 →
      calculateDewPoint (calculateSaturationVaporPressure 0 * 100 / 100) = 0) :=
  c8_dewpoint_roundtrip 0 100 (by norm_num) (by norm_num)

end WTLeistung
